import Mathlib

/-!
Verification of presslabs/kutil: a shallow embedding of
`core/v1/endpoints.go` (CreateOrPatchEndpoints / PatchEndpoints /
PatchEndpointsObject) and `admission/api/handler.go`
(ResourceHandlerFuncs), with theorems settling the specified behaviour.

External collaborators (the kubernetes client, json.Marshal,
strategicpatch.CreateTwoWayMergePatch) are modelled as records of
abstract functions; the repository code under verification is translated
function by function.
-/

/-- Modelled from the spec: `kutil.VerbType` from `kmodules.xyz/client-go`
(not under src/), the tri-state outcome tag Created / Patched / Unchanged. -/
inductive VerbType where
  | VerbCreated
  | VerbPatched
  | VerbUnchanged
deriving DecidableEq, Repr

/-- Modelled from the spec: errors returned by the kubernetes client and
the json / strategic-patch libraries. `kerr.IsNotFound` distinguishes the
not-found fetch error from every other error; the payload string stands
for the rest of the error value. -/
inductive KErr where
  | notFound (msg : String)
  | other (msg : String)
deriving DecidableEq, Repr

/-- Modelled from the spec: `kerr.IsNotFound` from apimachinery. -/
def KErr.isNotFound : KErr → Bool
  | .notFound _ => true
  | .other _ => false

/-- `metav1.TypeMeta`: the type descriptors stamped on a fresh object. -/
structure TypeMeta where
  Kind : String
  APIVersion : String
deriving DecidableEq, Repr

/-- `metav1.ObjectMeta`, reduced to the fields this code reads
(Namespace, Name) plus `Labels` standing for the remaining metadata. -/
structure ObjectMeta where
  Namespace : String
  Name : String
  Labels : List (String × String)
deriving DecidableEq, Repr

/-- `core.Endpoints`: TypeMeta, ObjectMeta, and `Subsets` standing for the
`[]core.EndpointSubset` payload. -/
structure Endpoints where
  TypeMeta : TypeMeta
  ObjectMeta : ObjectMeta
  Subsets : List String
deriving DecidableEq, Repr

/-- The zero value of `core.Endpoints`. -/
def defaultEndpoints : Endpoints :=
  { TypeMeta := { Kind := "", APIVersion := "" }
  , ObjectMeta := { Namespace := "", Name := "", Labels := [] }
  , Subsets := [] }

instance : Inhabited Endpoints := ⟨defaultEndpoints⟩

/-- Modelled from the spec: `core.SchemeGroupVersion.String()` for the core
group ("", "v1") renders as "v1". -/
def SchemeGroupVersionString : String := "v1"

/-- `types.StrategicMergePatchType`, the patch type passed to the client. -/
inductive PatchType where
  | StrategicMergePatchType
deriving DecidableEq, Repr

/-- The kubernetes client surface used by this file: Get, Create and Patch
on Endpoints, keyed by namespace. Create and Patch return both an object
and an error, as the Go client does. -/
structure Client where
  get : String → String → Except KErr Endpoints
  create : String → Endpoints → Option Endpoints × Option KErr
  patch : String → String → PatchType → String → Option Endpoints × Option KErr

/-- The json / strategic-patch library surface: `json.Marshal` on
Endpoints and `strategicpatch.CreateTwoWayMergePatch`, both fallible.
Patch bytes are modelled as a String. -/
structure JsonLib where
  marshal : Endpoints → Except KErr String
  createTwoWayMergePatch : String → String → Except KErr String

/-- `cur.DeepCopy()`: at the level of pure values a deep copy is the same
value; the heap model below accounts for the fresh allocation. -/
def Endpoints.DeepCopy (e : Endpoints) : Endpoints := e

/-- `PatchEndpointsObject` from endpoints.go: marshal cur and mod, compute
the two-way strategic merge patch, return cur tagged Unchanged when the
patch is empty, otherwise issue the patch call and tag Patched. -/
def PatchEndpointsObject (lib : JsonLib) (c : Client) (cur mod : Endpoints) :
    Option Endpoints × VerbType × Option KErr :=
  match lib.marshal cur with
  | .error e => (none, .VerbUnchanged, some e)
  | .ok curJson =>
    match lib.marshal mod with
    | .error e => (none, .VerbUnchanged, some e)
    | .ok modJson =>
      match lib.createTwoWayMergePatch curJson modJson with
      | .error e => (none, .VerbUnchanged, some e)
      | .ok patch =>
        if patch.length == 0 || patch == "\x7b\x7d" then
          (some cur, .VerbUnchanged, none)
        else
          let (out, err) := c.patch cur.ObjectMeta.Namespace cur.ObjectMeta.Name
            PatchType.StrategicMergePatchType patch
          (out, .VerbPatched, err)

/-- `PatchEndpoints` from endpoints.go: apply the transform to a deep copy
of cur and hand both to PatchEndpointsObject. -/
def PatchEndpoints (lib : JsonLib) (c : Client) (cur : Endpoints)
    (transform : Endpoints → Endpoints) :
    Option Endpoints × VerbType × Option KErr :=
  PatchEndpointsObject lib c cur (transform cur.DeepCopy)

/-- `CreateOrPatchEndpoints` from endpoints.go: fetch by namespace/name;
on not-found, create the transformed fresh object; on any other fetch
error, return it tagged Unchanged; otherwise patch. -/
def CreateOrPatchEndpoints (lib : JsonLib) (c : Client) (meta : ObjectMeta)
    (transform : Endpoints → Endpoints) :
    Option Endpoints × VerbType × Option KErr :=
  match c.get meta.Namespace meta.Name with
  | .error e =>
    if e.isNotFound then
      let (out, err) := c.create meta.Namespace
        (transform { TypeMeta := { Kind := "Endpoints"
                                 , APIVersion := SchemeGroupVersionString }
                   , ObjectMeta := meta
                   , Subsets := [] })
      (out, .VerbCreated, err)
    else
      (none, .VerbUnchanged, some e)
  | .ok cur => PatchEndpoints lib c cur transform

/-- The error sequencing of the first three steps of PatchEndpointsObject:
marshal cur, marshal mod, compute the patch; the first error wins. -/
def computeEndpointsPatch (lib : JsonLib) (cur mod : Endpoints) :
    Except KErr String := do
  let curJson ← lib.marshal cur
  let modJson ← lib.marshal mod
  lib.createTwoWayMergePatch curJson modJson

/-! ### Heap model for the deep-copy step

Go transforms receive a pointer; `PatchEndpoints` hands them a pointer to
a deep copy of the fetched object, never to the fetched object itself.
The heap holds Endpoints cells addressed by index. -/

/-- A heap of Endpoints cells; a pointer is an index into `cells`. -/
structure EndpointsHeap where
  cells : List Endpoints
deriving Repr

/-- Dereference a pointer. -/
def EndpointsHeap.read (h : EndpointsHeap) (p : Nat) : Option Endpoints :=
  h.cells.get? p

/-- Overwrite the cell a pointer refers to. -/
def EndpointsHeap.write (h : EndpointsHeap) (p : Nat) (v : Endpoints) :
    EndpointsHeap :=
  ⟨h.cells.set p v⟩

/-- Allocate a fresh cell, returning the new heap and the fresh pointer. -/
def EndpointsHeap.alloc (h : EndpointsHeap) (v : Endpoints) :
    EndpointsHeap × Nat :=
  (⟨h.cells ++ [v]⟩, h.cells.length)

/-- `cur.DeepCopy()` at heap level: allocate a fresh cell holding the same
value as the cell at `p`. -/
def deepCopyAlloc (h : EndpointsHeap) (p : Nat) : EndpointsHeap × Nat :=
  h.alloc ((h.read p).getD defaultEndpoints)

/-- A Go transform acting through its pointer argument: it reads the cell,
overwrites it in place with `f` of its value, and returns the pointer. -/
def applyTransformAt (f : Endpoints → Endpoints) (h : EndpointsHeap)
    (q : Nat) : EndpointsHeap × Nat :=
  (h.write q (f ((h.read q).getD defaultEndpoints)), q)

/-- `PatchEndpoints` at heap level: deep-copy the fetched cell, run the
transform on the copy, then call PatchEndpointsObject on the values of the
original cell and the transformed cell. -/
def PatchEndpointsPtr (lib : JsonLib) (c : Client) (h : EndpointsHeap)
    (p : Nat) (f : Endpoints → Endpoints) :
    Option Endpoints × VerbType × Option KErr :=
  let hq := deepCopyAlloc h p
  let hr := applyTransformAt f hq.1 hq.2
  PatchEndpointsObject lib c ((hr.1.read p).getD defaultEndpoints)
    ((hr.1.read hr.2).getD defaultEndpoints)

/-! ### Handler adaptor from admission/api/handler.go -/

/-- `ResourceHandlerFuncs` from handler.go: three optional callbacks. A Go
`interface` argument or result is an `Option α` (none is the nil
interface value); a Go `error` is an `Option String`; a nil function
field is `none`. -/
structure ResourceHandlerFuncs (α : Type) where
  AddFunc : Option (Option α → Option α × Option String)
  UpdateFunc : Option (Option α → Option α → Option α × Option String)
  DeleteFunc : Option (Option α → Option String)

/-- `OnAdd` calls AddFunc if it is not nil. -/
def ResourceHandlerFuncs.OnAdd (r : ResourceHandlerFuncs α)
    (obj : Option α) : Option α × Option String :=
  match r.AddFunc with
  | some f => f obj
  | none => (none, none)

/-- `OnUpdate` calls UpdateFunc if it is not nil. -/
def ResourceHandlerFuncs.OnUpdate (r : ResourceHandlerFuncs α)
    (oldObj newObj : Option α) : Option α × Option String :=
  match r.UpdateFunc with
  | some f => f oldObj newObj
  | none => (none, none)

/-- `OnDelete` calls DeleteFunc if it is not nil. -/
def ResourceHandlerFuncs.OnDelete (r : ResourceHandlerFuncs α)
    (obj : Option α) : Option String :=
  match r.DeleteFunc with
  | some f => f obj
  | none => none

/-! ### Helper lemmas -/

/-- When the marshal / patch-computation sequence fails, PatchEndpointsObject
returns that error tagged Unchanged, for any client. -/
lemma patchObject_computeErr (lib : JsonLib) (c : Client) (cur mod : Endpoints)
    (e : KErr) (h : computeEndpointsPatch lib cur mod = .error e) :
    PatchEndpointsObject lib c cur mod = (none, .VerbUnchanged, some e) := by
  cases h1 : lib.marshal cur with
  | error e1 =>
    have he : e1 = e := by
      simpa [computeEndpointsPatch, h1, Bind.bind, Except.bind] using h
    subst he
    simp [PatchEndpointsObject, h1]
  | ok a =>
    cases h2 : lib.marshal mod with
    | error e2 =>
      have he : e2 = e := by
        simpa [computeEndpointsPatch, h1, h2, Bind.bind, Except.bind] using h
      subst he
      simp [PatchEndpointsObject, h1, h2]
    | ok b =>
      cases h3 : lib.createTwoWayMergePatch a b with
      | error e3 =>
        have he : e3 = e := by
          simpa [computeEndpointsPatch, h1, h2, h3, Bind.bind, Except.bind] using h
        subst he
        simp [PatchEndpointsObject, h1, h2, h3]
      | ok p =>
        simp [computeEndpointsPatch, h1, h2, h3, Bind.bind, Except.bind] at h

/-- When the marshal / patch-computation sequence yields patch bytes `p`,
PatchEndpointsObject branches on emptiness of `p`. -/
lemma patchObject_computeOk (lib : JsonLib) (c : Client) (cur mod : Endpoints)
    (p : String) (h : computeEndpointsPatch lib cur mod = .ok p) :
    PatchEndpointsObject lib c cur mod =
      if p.length == 0 || p == "\x7b\x7d" then (some cur, .VerbUnchanged, none)
      else ((c.patch cur.ObjectMeta.Namespace cur.ObjectMeta.Name
               PatchType.StrategicMergePatchType p).1,
            .VerbPatched,
            (c.patch cur.ObjectMeta.Namespace cur.ObjectMeta.Name
               PatchType.StrategicMergePatchType p).2) := by
  cases h1 : lib.marshal cur with
  | error e1 =>
    simp [computeEndpointsPatch, h1, Bind.bind, Except.bind] at h
  | ok a =>
    cases h2 : lib.marshal mod with
    | error e2 =>
      simp [computeEndpointsPatch, h1, h2, Bind.bind, Except.bind] at h
    | ok b =>
      cases h3 : lib.createTwoWayMergePatch a b with
      | error e3 =>
        simp [computeEndpointsPatch, h1, h2, h3, Bind.bind, Except.bind] at h
      | ok q =>
        have hq : q = p := by
          simpa [computeEndpointsPatch, h1, h2, h3, Bind.bind, Except.bind] using h
        subst hq
        rcases hcp : c.patch cur.ObjectMeta.Namespace cur.ObjectMeta.Name
          PatchType.StrategicMergePatchType q with ⟨o, er⟩
        simp [PatchEndpointsObject, h1, h2, h3, hcp]

/-- Setting the cell just past a list, in the list extended by one, replaces
the appended element. -/
lemma list_set_append_length {α : Type} (l : List α) (a b : α) :
    (l ++ [a]).set l.length b = l ++ [b] := by
  induction l with
  | nil => rfl
  | cons x xs ih => simp [List.set, ih]

/-! ### Claim theorems -/

/-- C1: when the fetch fails with a not-found error, CreateOrPatchEndpoints
takes the create path: it builds a fresh Endpoints stamped with the given
metadata, Kind "Endpoints" and the core API version, applies the transform,
issues a create for the result, and tags the outcome Created. -/
theorem spec_c1 (lib : JsonLib) (c : Client) (meta : ObjectMeta)
    (transform : Endpoints → Endpoints) (e : KErr)
    (hget : c.get meta.Namespace meta.Name = .error e)
    (hnf : e.isNotFound = true) :
    CreateOrPatchEndpoints lib c meta transform =
      ((c.create meta.Namespace
          (transform { TypeMeta := { Kind := "Endpoints"
                                   , APIVersion := SchemeGroupVersionString }
                     , ObjectMeta := meta, Subsets := [] })).1,
       .VerbCreated,
       (c.create meta.Namespace
          (transform { TypeMeta := { Kind := "Endpoints"
                                   , APIVersion := SchemeGroupVersionString }
                     , ObjectMeta := meta, Subsets := [] })).2) := by
  unfold CreateOrPatchEndpoints
  rw [hget]
  rcases hc : c.create meta.Namespace
      (transform { TypeMeta := { Kind := "Endpoints"
                               , APIVersion := SchemeGroupVersionString }
                 , ObjectMeta := meta, Subsets := [] }) with ⟨o, er⟩
  simp [hnf, hc]

/-- C2: when the fetch fails with an error other than not-found,
CreateOrPatchEndpoints returns that exact error with outcome Unchanged and
a nil object, whatever the create and patch operations of the client do
(so neither is attempted). -/
theorem spec_c2 (lib : JsonLib) (c : Client) (meta : ObjectMeta)
    (transform : Endpoints → Endpoints) (e : KErr)
    (hget : c.get meta.Namespace meta.Name = .error e)
    (hnf : e.isNotFound = false) :
    ∀ cr pa, CreateOrPatchEndpoints lib
        { get := c.get, create := cr, patch := pa } meta transform =
      (none, VerbType.VerbUnchanged, some e) := by
  intro cr pa
  unfold CreateOrPatchEndpoints
  dsimp only
  rw [hget]
  simp [hnf]

/-- C3: when the computed two-way strategic merge patch between the fetched
object and its transform is empty, the patch path returns the very original
object, outcome Unchanged and no error. -/
theorem spec_c3 (lib : JsonLib) (c : Client) (cur : Endpoints)
    (transform : Endpoints → Endpoints) (p : String)
    (hp : computeEndpointsPatch lib cur (transform cur.DeepCopy) = .ok p)
    (hempty : p.length = 0 ∨ p = "\x7b\x7d") :
    PatchEndpoints lib c cur transform = (some cur, VerbType.VerbUnchanged, none) := by
  unfold PatchEndpoints
  rw [patchObject_computeOk lib c cur (transform cur.DeepCopy) p hp]
  rcases hempty with h | h <;> simp [h]

/-- C4: when the computed patch is non-empty, the patch path issues the
strategic merge patch through the client and, on success, returns the
response object from the server with outcome Patched. -/
theorem spec_c4 (lib : JsonLib) (c : Client) (cur : Endpoints)
    (transform : Endpoints → Endpoints) (p : String) (out : Endpoints)
    (hp : computeEndpointsPatch lib cur (transform cur.DeepCopy) = .ok p)
    (hlen : p.length ≠ 0) (hne : p ≠ "\x7b\x7d")
    (hpatch : c.patch cur.ObjectMeta.Namespace cur.ObjectMeta.Name
        PatchType.StrategicMergePatchType p = (some out, none)) :
    PatchEndpoints lib c cur transform = (some out, VerbType.VerbPatched, none) := by
  unfold PatchEndpoints
  rw [patchObject_computeOk lib c cur (transform cur.DeepCopy) p hp]
  simp [hlen, hne, hpatch]

/-- C5: when marshalling either object or computing the two-way patch
fails, PatchEndpointsObject returns that exact error, outcome Unchanged and
a nil object, whatever the patch operation of the client does (so no patch
call is issued). -/
theorem spec_c5 (lib : JsonLib) (c : Client) (cur mod : Endpoints) (e : KErr)
    (hp : computeEndpointsPatch lib cur mod = .error e) :
    ∀ pa, PatchEndpointsObject lib
        { get := c.get, create := c.create, patch := pa } cur mod =
      (none, VerbType.VerbUnchanged, some e) := by
  intro pa
  exact patchObject_computeErr lib _ cur mod e hp

/-- C6: on the patch path the transform runs on a freshly allocated deep
copy of the fetched object, so the fetched cell is unchanged after the
transform step, for every transform; and the heap-level run agrees with
the value-level PatchEndpoints on the fetched value. -/
theorem spec_c6 (lib : JsonLib) (c : Client) (h : EndpointsHeap) (p : Nat)
    (f : Endpoints → Endpoints) (v : Endpoints)
    (hp : h.read p = some v) :
    ((applyTransformAt f (deepCopyAlloc h p).1 (deepCopyAlloc h p).2).1).read p
        = some v
    ∧ PatchEndpointsPtr lib c h p f = PatchEndpoints lib c v f := by
  have hp' : p < h.cells.length := by
    have := hp
    unfold EndpointsHeap.read at this
    exact List.get?_eq_some.mp this |>.1
  have hv : (h.read p).getD defaultEndpoints = v := by rw [hp]; rfl
  have hd : deepCopyAlloc h p = (⟨h.cells ++ [v]⟩, h.cells.length) := by
    simp [deepCopyAlloc, EndpointsHeap.alloc, hv]
  have hreadq : (EndpointsHeap.mk (h.cells ++ [v])).read h.cells.length
      = some v := by
    simp [EndpointsHeap.read, List.get?_concat_length]
  have ht : applyTransformAt f ⟨h.cells ++ [v]⟩ h.cells.length
      = (⟨h.cells ++ [f v]⟩, h.cells.length) := by
    simp [applyTransformAt, EndpointsHeap.write, hreadq,
      list_set_append_length]
  have hreadp : (EndpointsHeap.mk (h.cells ++ [f v])).read p = some v := by
    unfold EndpointsHeap.read
    rw [List.get?_append hp']
    exact hp
  have hreadr : (EndpointsHeap.mk (h.cells ++ [f v])).read h.cells.length
      = some (f v) := by
    simp [EndpointsHeap.read, List.get?_concat_length]
  constructor
  · rw [hd]
    dsimp only
    rw [ht]
    exact hreadp
  · unfold PatchEndpointsPtr
    rw [hd]
    dsimp only
    rw [ht]
    dsimp only
    rw [hreadp, hreadr]
    rfl

/-- C7: a ResourceHandlerFuncs whose corresponding function field is unset
is a no-op: OnAdd and OnUpdate return a nil value and a nil error, and
OnDelete returns a nil error, for all arguments. -/
theorem spec_c7 {α : Type} (r : ResourceHandlerFuncs α) :
    (r.AddFunc = none → ∀ obj, r.OnAdd obj = (none, none))
    ∧ (r.UpdateFunc = none →
        ∀ oldObj newObj, r.OnUpdate oldObj newObj = (none, none))
    ∧ (r.DeleteFunc = none → ∀ obj, r.OnDelete obj = none) := by
  refine ⟨fun h obj => ?_, fun h oldObj newObj => ?_, fun h obj => ?_⟩ <;>
    simp [ResourceHandlerFuncs.OnAdd, ResourceHandlerFuncs.OnUpdate,
      ResourceHandlerFuncs.OnDelete, h]

/-- C8: a ResourceHandlerFuncs whose corresponding function field is set
delegates to it: each method returns exactly the result of the field
applied to its own arguments. -/
theorem spec_c8 {α : Type} (r : ResourceHandlerFuncs α) :
    (∀ f, r.AddFunc = some f → ∀ obj, r.OnAdd obj = f obj)
    ∧ (∀ f, r.UpdateFunc = some f →
        ∀ oldObj newObj, r.OnUpdate oldObj newObj = f oldObj newObj)
    ∧ (∀ f, r.DeleteFunc = some f → ∀ obj, r.OnDelete obj = f obj) := by
  refine ⟨fun f h obj => ?_, fun f h oldObj newObj => ?_, fun f h obj => ?_⟩ <;>
    simp [ResourceHandlerFuncs.OnAdd, ResourceHandlerFuncs.OnUpdate,
      ResourceHandlerFuncs.OnDelete, h]

/-- C9: the outcome tag reports the branch attempted, not its success: a
failing create on the not-found path still yields outcome Created with the
create error, and a failing patch call still yields outcome Patched with
the patch error; neither failure yields Unchanged. -/
theorem spec_c9 (lib : JsonLib) (c : Client) (meta : ObjectMeta)
    (transform : Endpoints → Endpoints) (cur mod : Endpoints) :
    (∀ e o ce, c.get meta.Namespace meta.Name = .error e →
      e.isNotFound = true →
      c.create meta.Namespace
          (transform { TypeMeta := { Kind := "Endpoints"
                                   , APIVersion := SchemeGroupVersionString }
                     , ObjectMeta := meta, Subsets := [] }) = (o, some ce) →
      CreateOrPatchEndpoints lib c meta transform =
        (o, VerbType.VerbCreated, some ce))
    ∧ (∀ p o pe, computeEndpointsPatch lib cur mod = .ok p →
      p.length ≠ 0 → p ≠ "\x7b\x7d" →
      c.patch cur.ObjectMeta.Namespace cur.ObjectMeta.Name
          PatchType.StrategicMergePatchType p = (o, some pe) →
      PatchEndpointsObject lib c cur mod =
        (o, VerbType.VerbPatched, some pe)) := by
  constructor
  · intro e o ce hget hnf hcreate
    unfold CreateOrPatchEndpoints
    rw [hget]
    simp [hnf, hcreate]
  · intro p o pe hp hlen hne hpatch
    rw [patchObject_computeOk lib c cur mod p hp]
    simp [hlen, hne, hpatch]

/-- C10: the computed patch counts as empty exactly when its bytes have
length zero or are the literal two-character brace string; in those cases
PatchEndpointsObject takes the Unchanged branch, and in every other case
it issues the patch call and tags Patched. -/
theorem spec_c10 (lib : JsonLib) (c : Client) (cur mod : Endpoints)
    (p : String) (hp : computeEndpointsPatch lib cur mod = .ok p) :
    ((p.length = 0 ∨ p = "\x7b\x7d") →
      PatchEndpointsObject lib c cur mod =
        (some cur, VerbType.VerbUnchanged, none))
    ∧ (p.length ≠ 0 → p ≠ "\x7b\x7d" →
      PatchEndpointsObject lib c cur mod =
        ((c.patch cur.ObjectMeta.Namespace cur.ObjectMeta.Name
            PatchType.StrategicMergePatchType p).1,
         VerbType.VerbPatched,
         (c.patch cur.ObjectMeta.Namespace cur.ObjectMeta.Name
            PatchType.StrategicMergePatchType p).2)) := by
  rw [patchObject_computeOk lib c cur mod p hp]
  constructor
  · rintro (h | h) <;> simp [h]
  · intro hlen hne
    simp [hlen, hne]

/-! ### Concrete fixtures for the witnesses -/

/-- A concrete identity. -/
def metaA : ObjectMeta := { Namespace := "demo", Name := "svc", Labels := [] }

/-- A concrete fetched Endpoints object. -/
def epA : Endpoints :=
  { TypeMeta := { Kind := "Endpoints", APIVersion := "v1" }
  , ObjectMeta := metaA, Subsets := ["10.0.0.1"] }

/-- epA with a different subsets payload. -/
def epB : Endpoints := { epA with Subsets := ["10.0.0.2"] }

/-- A transform that prepends a subset. -/
def addSubset : Endpoints → Endpoints :=
  fun e => { e with Subsets := "10.0.0.2" :: e.Subsets }

/-- A transform that clears the subsets. -/
def dropSubsets : Endpoints → Endpoints := fun e => { e with Subsets := [] }

/-- A concrete json library: marshal renders the subsets, and the two-way
patch is the empty-object string on equal inputs, else the new rendering. -/
def libA : JsonLib :=
  { marshal := fun e => .ok (String.intercalate "," e.Subsets)
  , createTwoWayMergePatch := fun a b =>
      if a == b then .ok "\x7b\x7d" else .ok b }

/-- A json library whose marshal always fails. -/
def libErr : JsonLib :=
  { marshal := fun _ => .error (.other "marshal boom")
  , createTwoWayMergePatch := fun _ _ => .error (.other "diff boom") }

/-- A client that finds epA and echoes creates and patches back. -/
def clientA : Client :=
  { get := fun _ _ => .ok epA
  , create := fun _ e => (some e, none)
  , patch := fun _ _ _ pbytes => (some { epA with Subsets := [pbytes] }, none) }

/-- A client whose fetch reports not-found. -/
def clientNotFound : Client :=
  { get := fun _ _ => .error (.notFound "endpoints not found")
  , create := fun _ e => (some e, none)
  , patch := fun _ _ _ _ => (none, none) }

/-- A client whose fetch fails with a non-not-found error. -/
def clientGetErr : Client :=
  { get := fun _ _ => .error (.other "connection refused")
  , create := fun _ e => (some e, none)
  , patch := fun _ _ _ _ => (none, none) }

/-- A client whose fetch reports not-found and whose create and patch both
fail. -/
def clientFail : Client :=
  { get := fun _ _ => .error (.notFound "nf")
  , create := fun _ e => (some e, some (.other "create denied"))
  , patch := fun _ _ _ _ => (none, some (.other "patch denied")) }

/-- Handler with every callback unset. -/
def rhfNone : ResourceHandlerFuncs Nat :=
  { AddFunc := none, UpdateFunc := none, DeleteFunc := none }

/-- A concrete add callback. -/
def addOne : Option Nat → Option Nat × Option String :=
  fun obj => (obj.map (fun n => n + 1), none)

/-- A concrete update callback. -/
def pickNew : Option Nat → Option Nat → Option Nat × Option String :=
  fun _ newObj => (newObj, none)

/-- A concrete delete callback. -/
def delNote : Option Nat → Option String :=
  fun obj => if obj.isSome then none else some "final state unknown"

/-- Handler with every callback set. -/
def rhfSet : ResourceHandlerFuncs Nat :=
  { AddFunc := some addOne, UpdateFunc := some pickNew
  , DeleteFunc := some delNote }

/-! ### Witnesses -/

/-- C1 witness: a not-found fetch leads to creating the stamped fresh
object. -/
theorem spec_c1_witness :
    CreateOrPatchEndpoints libA clientNotFound metaA id =
      (some { TypeMeta := { Kind := "Endpoints"
                          , APIVersion := SchemeGroupVersionString }
            , ObjectMeta := metaA, Subsets := [] },
       VerbType.VerbCreated, none) := by
  have h := spec_c1 libA clientNotFound metaA id
    (KErr.notFound "endpoints not found") rfl rfl
  simpa [clientNotFound] using h

/-- C2 witness: a connection error on fetch is propagated as Unchanged. -/
theorem spec_c2_witness :
    CreateOrPatchEndpoints libA
        { get := clientGetErr.get, create := clientGetErr.create
        , patch := clientGetErr.patch } metaA id =
      (none, VerbType.VerbUnchanged, some (KErr.other "connection refused")) :=
  spec_c2 libA clientGetErr metaA id (KErr.other "connection refused") rfl rfl
    clientGetErr.create clientGetErr.patch

/-- C3 witness: the identity transform produces the empty patch and the
original object comes back Unchanged. -/
theorem spec_c3_witness :
    PatchEndpoints libA clientA epA id =
      (some epA, VerbType.VerbUnchanged, none) :=
  spec_c3 libA clientA epA id "\x7b\x7d" rfl (Or.inr rfl)

/-- C4 witness: a subset-adding transform produces a non-empty patch and
the server response comes back Patched. -/
theorem spec_c4_witness :
    PatchEndpoints libA clientA epA addSubset =
      (some { epA with Subsets := ["10.0.0.2,10.0.0.1"] },
       VerbType.VerbPatched, none) :=
  spec_c4 libA clientA epA addSubset "10.0.0.2,10.0.0.1"
    { epA with Subsets := ["10.0.0.2,10.0.0.1"] } rfl (by decide) (by decide)
    rfl

/-- C5 witness: a failing marshal is propagated as Unchanged with no patch
call. -/
theorem spec_c5_witness :
    PatchEndpointsObject libErr
        { get := clientA.get, create := clientA.create
        , patch := clientA.patch } epA epA =
      (none, VerbType.VerbUnchanged, some (KErr.other "marshal boom")) :=
  spec_c5 libErr clientA epA epA (KErr.other "marshal boom") rfl clientA.patch

/-- C6 witness: on a one-cell heap holding epA, the transform leaves the
fetched cell intact and the heap run agrees with the value run. -/
theorem spec_c6_witness :
    ((applyTransformAt dropSubsets (deepCopyAlloc (EndpointsHeap.mk [epA]) 0).1
        (deepCopyAlloc (EndpointsHeap.mk [epA]) 0).2).1).read 0 = some epA
    ∧ PatchEndpointsPtr libA clientA (EndpointsHeap.mk [epA]) 0 dropSubsets
        = PatchEndpoints libA clientA epA dropSubsets :=
  spec_c6 libA clientA (EndpointsHeap.mk [epA]) 0 dropSubsets epA rfl

/-- C7 witness: the all-unset handler is a no-op on concrete arguments. -/
theorem spec_c7_witness :
    rhfNone.OnAdd (some 3) = (none, none)
    ∧ rhfNone.OnUpdate (some 1) (some 2) = (none, none)
    ∧ rhfNone.OnDelete none = none :=
  ⟨(spec_c7 rhfNone).1 rfl (some 3),
   (spec_c7 rhfNone).2.1 rfl (some 1) (some 2),
   (spec_c7 rhfNone).2.2 rfl none⟩

/-- C8 witness: the all-set handler delegates to its callbacks on concrete
arguments. -/
theorem spec_c8_witness :
    rhfSet.OnAdd (some 3) = addOne (some 3)
    ∧ rhfSet.OnUpdate (some 1) (some 2) = pickNew (some 1) (some 2)
    ∧ rhfSet.OnDelete (some 4) = delNote (some 4) :=
  ⟨(spec_c8 rhfSet).1 addOne rfl (some 3),
   (spec_c8 rhfSet).2.1 pickNew rfl (some 1) (some 2),
   (spec_c8 rhfSet).2.2 delNote rfl (some 4)⟩

/-- C9 witness: a denied create still reports Created, and a denied patch
still reports Patched. -/
theorem spec_c9_witness :
    CreateOrPatchEndpoints libA clientFail metaA id =
      (some { TypeMeta := { Kind := "Endpoints"
                          , APIVersion := SchemeGroupVersionString }
            , ObjectMeta := metaA, Subsets := [] },
       VerbType.VerbCreated, some (KErr.other "create denied"))
    ∧ PatchEndpointsObject libA clientFail epA epB =
      (none, VerbType.VerbPatched, some (KErr.other "patch denied")) := by
  have h := spec_c9 libA clientFail metaA id epA epB
  exact ⟨h.1 (KErr.notFound "nf") _ _ rfl rfl rfl,
    h.2 "10.0.0.2" none (KErr.other "patch denied") rfl (by decide)
      (by decide) rfl⟩

/-- C10 witness: the empty-object patch takes the Unchanged branch and a
non-empty patch leads to the patch call. -/
theorem spec_c10_witness :
    PatchEndpointsObject libA clientA epA epA =
      (some epA, VerbType.VerbUnchanged, none)
    ∧ PatchEndpointsObject libA clientA epA epB =
      ((clientA.patch epA.ObjectMeta.Namespace epA.ObjectMeta.Name
          PatchType.StrategicMergePatchType "10.0.0.2").1,
       VerbType.VerbPatched,
       (clientA.patch epA.ObjectMeta.Namespace epA.ObjectMeta.Name
          PatchType.StrategicMergePatchType "10.0.0.2").2) :=
  ⟨(spec_c10 libA clientA epA epA "\x7b\x7d" rfl).1 (Or.inr rfl),
   (spec_c10 libA clientA epA epB "10.0.0.2" rfl).2 (by decide) (by decide)⟩
